import Mathlib

/-!
Verification development for the AgriScan soil-water monitoring pipeline.

The definitions below are a shallow embedding of the JavaScript physics
engine (src/js/physics.js), of the SQLite persistence layer
(DBManager, src/unnamed/part_002) and of the firmware acquisition loop
(src/src/main.cpp).  JavaScript numbers are modelled as real numbers;
JavaScript null is modelled with Option; JavaScript truthiness of a
numeric value is modelled as the value being distinct from 0 (NaN is not
modelled).  Unreachable null-coercions in arithmetic are modelled with
Option.getD 0, matching the JavaScript coercion of null to 0.
-/

namespace AgriScan

noncomputable section

open Classical

/-! CONFIG constants of physics.js (the subset the embedded code uses). -/

def spike_z_thresh : ℝ := 6
def stuck_eps : ℝ := 0.001
def theta_bound_lo : ℝ := 0
def theta_bound_hi : ℝ := 0.50
def T_ref : ℝ := 20
def a_temp : ℝ := 0
def wet_jump_thresh : ℝ := 0.02
def wet_window : ℝ := 2 * 3600
def min_event_separation : ℝ := 12 * 3600
def post_event_ignore : ℝ := 1 * 3600
def slope_window : ℝ := 2 * 3600
def s_min : ℝ := 0.0005
def hold_hours : ℝ := 8
def fc_update_lambda : ℝ := 0.25
def theta_dry_percentile : ℝ := 0.05
def theta_dry_window : ℝ := 30
def eta_refill : ℝ := 0.5
def refill_hysteresis : ℝ := 0.01
def kd_init : ℝ := 0.05
def ku_init : ℝ := 0.0005
def beta_init : ℝ := 1.0

/-! Utility functions of physics.js. -/

/-- Linear interpolation, physics.js lerp. -/
def lerp (a b t : ℝ) : ℝ := a + (b - a) * t

/-- Clamp value between min and max, physics.js clamp. -/
def clamp (val lo hi : ℝ) : ℝ := min (max val lo) hi

/-- Model of Array.reduce((a, b) => a + b, 0). -/
def sumList (l : List ℝ) : ℝ := l.foldl (fun a b => a + b) 0

/-- Model of Math.max(...arr) for the nonempty lists the code feeds it. -/
def maxList : List ℝ → ℝ
  | [] => 0
  | a :: t => t.foldl max a

/-- Model of Math.min(...arr) for the nonempty lists the code feeds it. -/
def minList : List ℝ → ℝ
  | [] => 0
  | a :: t => t.foldl min a

/-- Insertion step of the sort modelling [...arr].sort((a, b) => a - b). -/
def insertSorted (a : ℝ) : List ℝ → List ℝ
  | [] => [a]
  | b :: t => if a ≤ b then a :: b :: t else b :: insertSorted a t

/-- Model of [...arr].sort((a, b) => a - b) as an insertion sort. -/
def sortList : List ℝ → List ℝ
  | [] => []
  | a :: t => insertSorted a (sortList t)

/-- Value computed by physics.js median on a nonempty array. -/
def medianVal (arr : List ℝ) : ℝ :=
  let sorted := sortList arr
  let mid := sorted.length / 2
  if sorted.length % 2 = 0 then (sorted.getD (mid - 1) 0 + sorted.getD mid 0) / 2
  else sorted.getD mid 0

/-- physics.js median: null on the empty array. -/
def median (arr : List ℝ) : Option ℝ :=
  if arr.length = 0 then none else some (medianVal arr)

/-- Value computed by physics.js percentile on a nonempty array.
The index arithmetic mirrors (p / 100) * (sorted.length - 1) with
Math.floor, Math.ceil and the linear weight between the two entries. -/
def percentileVal (arr : List ℝ) (p : ℝ) : ℝ :=
  let sorted := sortList arr
  let index := (p / 100) * ((sorted.length : ℝ) - 1)
  let lower := ⌊index⌋₊
  let upper := ⌈index⌉₊
  let weight := index - (lower : ℝ)
  sorted.getD lower 0 * (1 - weight) + sorted.getD upper 0 * weight

/-- physics.js percentile: null on the empty array. -/
def percentile (arr : List ℝ) (p : ℝ) : Option ℝ :=
  if arr.length = 0 then none else some (percentileVal arr p)

/-- physics.js std: population standard deviation, 0 on the empty array. -/
def stdList (arr : List ℝ) : ℝ :=
  if arr.length = 0 then 0
  else
    let mean := sumList arr / (arr.length : ℝ)
    Real.sqrt (sumList (arr.map (fun v => (v - mean) ^ 2)) / (arr.length : ℝ))

/-- physics.js ewma(current, newValue, lambda): newValue when current is null. -/
def ewmaO (current : Option ℝ) (newValue lam : ℝ) : ℝ :=
  match current with
  | none => newValue
  | some c => (1 - lam) * c + lam * newValue

/-! SensorCalibration (physics.js).  The engine always runs with the
default factory curve, siteCorrection gain 1 offset 0, and
tempCorrection = CONFIG.a_temp. -/

/-- Default factory calibration curve (raw ADC, theta) breakpoints. -/
def factoryPoints : List (ℝ × ℝ) :=
  [(250, 0.00), (450, 0.10), (650, 0.25), (850, 0.40), (1000, 0.50)]

/-- Interpolation loop of SensorCalibration.rawToVWC: prev is the last
visited breakpoint; on fallthrough the code returns the last y value,
which equals prev.2 once the list is exhausted. -/
def findSegment (raw : ℝ) (prev : ℝ × ℝ) : List (ℝ × ℝ) → ℝ
  | [] => prev.2
  | p :: rest =>
    if raw ≤ p.1 then lerp prev.2 p.2 ((raw - prev.1) / (p.1 - prev.1))
    else findSegment raw p rest

/-- SensorCalibration.rawToVWC: clamp at the endpoint breakpoints, then
piecewise-linear interpolation over the factory curve. -/
def rawToVWC (raw : ℝ) : ℝ :=
  if raw ≤ 250 then 0.00
  else if 1000 ≤ raw then 0.50
  else findSegment raw (250, 0.00) (factoryPoints.drop 1)

/-- SensorCalibration.temperatureCorrection with the default a_temp. -/
def temperatureCorrection (theta temp_c : ℝ) : ℝ := theta + a_temp * (temp_c - T_ref)

def siteGain : ℝ := 1.0
def siteOffset : ℝ := 0

/-- SensorCalibration.siteCorrection_apply with the default gain and offset. -/
def siteCorrectionApply (theta : ℝ) : ℝ := siteGain * theta + siteOffset

/-- SensorCalibration.calibrate: raw to VWC with all corrections and the
final clamp to the physical bounds. -/
def calibrate (raw temp_c : ℝ) : ℝ :=
  clamp (temperatureCorrection (siteCorrectionApply (rawToVWC raw)) temp_c)
    theta_bound_lo theta_bound_hi

inductive QCFlag
  | OUT_OF_BOUNDS
  | SPIKE_DETECTED
  | SENSOR_STUCK
  | TEMP_OUT_OF_RANGE
deriving DecidableEq

/-- The data point record built in PhysicsEngine.processSensorReading. -/
structure DataPoint where
  timestamp : ℝ
  raw : ℝ
  temp_c : ℝ
  theta : ℝ
  qc_valid : Bool
  qc_flags : List QCFlag

def defaultDP : DataPoint := ⟨0, 0, 0, 0, true, []⟩

/-- Model of history.slice(-n). -/
def takeLast (n : ℕ) (l : List DataPoint) : List DataPoint := l.drop (l.length - n)

structure QCResult where
  valid : Bool
  flags : List QCFlag

/-- SensorCalibration.qualityControl: bounds, spike (z score over the last
five thetas), stuck (range of the last ten thetas) and temperature checks;
valid iff no flag was raised. -/
def qualityControl (theta temp_c : ℝ) (history : List DataPoint) : QCResult :=
  let flags1 : List QCFlag :=
    if theta < theta_bound_lo ∨ theta_bound_hi < theta then [QCFlag.OUT_OF_BOUNDS] else []
  let flags2 :=
    if 3 ≤ history.length then
      let recent := (takeLast 5 history).map DataPoint.theta
      let mean := sumList recent / (recent.length : ℝ)
      let stdDev := stdList recent
      let z := |(theta - mean) / (stdDev + 0.001)|
      if spike_z_thresh < z then flags1 ++ [QCFlag.SPIKE_DETECTED] else flags1
    else flags1
  let flags3 :=
    if 10 ≤ history.length then
      let recent := (takeLast 10 history).map DataPoint.theta
      if maxList recent - minList recent < stuck_eps then flags2 ++ [QCFlag.SENSOR_STUCK]
      else flags2
    else flags2
  let flags4 := if temp_c < -10 ∨ 60 < temp_c then flags3 ++ [QCFlag.TEMP_OUT_OF_RANGE] else flags3
  ⟨flags4.isEmpty, flags4⟩

/-! SoilModel (physics.js): van Genuchten retention and derived values. -/

structure SoilParams where
  theta_r : ℝ
  theta_s : ℝ
  alpha : ℝ
  n : ℝ
  Ks : ℝ
  m : ℝ

/-- SoilModel.vanGenuchten_theta: matric potential (cm) to water content. -/
def vanGenuchten_theta (p : SoilParams) (psi_cm : ℝ) : ℝ :=
  if psi_cm ≤ 0 then p.theta_s
  else p.theta_r + (p.theta_s - p.theta_r) / (1 + (p.alpha * psi_cm) ^ p.n) ^ p.m

/-- SoilModel.vanGenuchten_psi: water content to matric potential (cm),
with the clamp into (theta_r + 0.001, theta_s - 0.001) before inversion. -/
def vanGenuchten_psi (p : SoilParams) (theta : ℝ) : ℝ :=
  let th := clamp theta (p.theta_r + 0.001) (p.theta_s - 0.001)
  let Se := (th - p.theta_r) / (p.theta_s - p.theta_r)
  ((1 / Se) ^ (1 / p.m) - 1) ^ (1 / p.n) / p.alpha

/-- SoilModel.effectiveSaturation. -/
def effectiveSaturation (p : SoilParams) (theta : ℝ) : ℝ :=
  clamp ((theta - p.theta_r) / (p.theta_s - p.theta_r)) 0 1

/-- SoilModel.hydraulicConductivity (Mualem - van Genuchten, L = 0.5). -/
def hydraulicConductivity (p : SoilParams) (theta : ℝ) : ℝ :=
  let Se := effectiveSaturation p theta
  if 1.0 ≤ Se then p.Ks
  else if Se ≤ 0.01 then p.Ks * 1e-10
  else p.Ks * Se ^ (0.5 : ℝ) * (1 - (1 - Se ^ (1 / p.m)) ^ p.m) ^ 2

/-- The SoilModel object: params with the computed m, plus the default
field capacity and wilting point taken at 330 cm and 15000 cm. -/
structure SoilModelR where
  params : SoilParams
  theta_fc : ℝ
  theta_pwp : ℝ

/-- SoilModel constructor: m = 1 - 1/n, theta_fc from psi = 330 cm,
theta_pwp from psi = 15000 cm. -/
def soilModelOf (theta_r theta_s alpha n Ks : ℝ) : SoilModelR :=
  ⟨⟨theta_r, theta_s, alpha, n, Ks, 1 - 1 / n⟩,
   vanGenuchten_theta ⟨theta_r, theta_s, alpha, n, Ks, 1 - 1 / n⟩ 330,
   vanGenuchten_theta ⟨theta_r, theta_s, alpha, n, Ks, 1 - 1 / n⟩ 15000⟩

/-- DEFAULT_SOIL (loam) run through the SoilModel constructor. -/
def defaultSoilModel : SoilModelR := soilModelOf 0.078 0.43 0.036 1.56 25.0

structure AWResult where
  TAW_mm : ℝ
  AW_mm : ℝ
  Dr_mm : ℝ
  fractionDepleted : ℝ

/-- SoilModel.availableWater. -/
def availableWater (s : SoilModelR) (theta rootDepth_cm : ℝ) : AWResult :=
  let TAW := (s.theta_fc - s.theta_pwp) * rootDepth_cm * 10
  let AW := max 0 ((theta - s.theta_pwp) * rootDepth_cm * 10)
  let Dr := TAW - AW
  let fd := if 0 < TAW then Dr / TAW else 0
  ⟨TAW, AW, Dr, clamp fd 0 1⟩

/-! Status engine (PhysicsEngine.getIrrigationStatus). -/

inductive Status
  | FULL | OPTIMAL | MONITOR | REFILL | UNKNOWN
deriving DecidableEq

inductive Urgency
  | none | low | medium | high
deriving DecidableEq

structure IrrStatus where
  state : Status
  urgency : Urgency
deriving DecidableEq

/-- JavaScript truthiness of the drying rate combined with the rapid
threshold: dryingRate && dryingRate < -0.002. -/
def rapidDrying (dryingRate : Option ℝ) : Prop :=
  match dryingRate with
  | none => False
  | some d => d ≠ 0 ∧ d < -0.002

/-- JavaScript truthiness of the drying rate combined with the moderate
threshold: dryingRate && dryingRate < -0.0005. -/
def moderateDrying (dryingRate : Option ℝ) : Prop :=
  match dryingRate with
  | none => False
  | some d => d ≠ 0 ∧ d < -0.0005

/-- PhysicsEngine.getIrrigationStatus.  The leading JavaScript test
(!theta_refill) is falsy both for null and for the number 0, hence the
two UNKNOWN branches. -/
def getIrrigationStatus (theta theta_fc : ℝ) (theta_refill dryingRate : Option ℝ) :
    IrrStatus :=
  match theta_refill with
  | none => ⟨Status.UNKNOWN, Urgency.none⟩
  | some r =>
    if r = 0 then ⟨Status.UNKNOWN, Urgency.none⟩
    else if theta < r - refill_hysteresis ∨ rapidDrying dryingRate then
      ⟨Status.REFILL, Urgency.high⟩
    else if theta < theta_fc ∧ r - refill_hysteresis ≤ theta then
      if moderateDrying dryingRate then ⟨Status.MONITOR, Urgency.medium⟩
      else ⟨Status.OPTIMAL, Urgency.low⟩
    else if theta_fc ≤ theta then ⟨Status.FULL, Urgency.none⟩
    else ⟨Status.OPTIMAL, Urgency.low⟩

/-- Statuses produced by the engine along a run of samples
(theta, dryingRate) under fixed calibration targets. -/
def statusTrace (theta_fc : ℝ) (theta_refill : Option ℝ)
    (samples : List (ℝ × Option ℝ)) : List Status :=
  samples.map (fun s => (getIrrigationStatus s.1 theta_fc theta_refill s.2).state)

/-- Model of the JavaScript access history[history.length - 1]. -/
def lastD (l : List DataPoint) : DataPoint := l.getD (l.length - 1) defaultDP

/-! EventDetection (physics.js).  lastEventTime is the one piece of
mutable state of the EventDetection object; detectWetting returns its
updated value alongside the detection result. -/

structure WetResult where
  detected : Bool
  delta_theta : ℝ
  lastEventTime : Option ℝ

/-- EventDetection.detectWetting.  The separation check reads
(this.lastEventTime && now - this.lastEventTime < min_event_separation),
so a stored time of 0 is falsy and skips the check. -/
def detectWetting (lastEvt : Option ℝ) (history : List DataPoint) : WetResult :=
  if history.length < 2 then ⟨false, 0, lastEvt⟩
  else
    let now := (lastD history).timestamp
    let recentData := history.filter (fun h => decide (now - wet_window ≤ h.timestamp))
    if recentData.length < 2 then ⟨false, 0, lastEvt⟩
    else
      let thetaStart := (recentData.headD defaultDP).theta
      let thetaEnd := (lastD recentData).theta
      let deltaTheta := thetaEnd - thetaStart
      if wet_jump_thresh ≤ deltaTheta then
        match lastEvt with
        | some t =>
          if t ≠ 0 ∧ now - t < min_event_separation then ⟨false, deltaTheta, lastEvt⟩
          else ⟨true, deltaTheta, some now⟩
        | none => ⟨true, deltaTheta, some now⟩
      else ⟨false, deltaTheta, lastEvt⟩

/-- EventDetection.calculateDryingRate: ordinary least squares slope of
theta against hours over the trailing window; null with fewer than three
points. -/
def calculateDryingRate (history : List DataPoint) (windowSeconds : ℝ) : Option ℝ :=
  if history.length < 3 then none
  else
    let now := (lastD history).timestamp
    let windowData := history.filter (fun h => decide (now - windowSeconds ≤ h.timestamp))
    if windowData.length < 3 then none
    else
      let n := (windowData.length : ℝ)
      let t0 := (windowData.headD defaultDP).timestamp
      let xOf := fun (p : DataPoint) => (p.timestamp - t0) / 3600
      let sumX := sumList (windowData.map xOf)
      let sumY := sumList (windowData.map DataPoint.theta)
      let sumXY := sumList (windowData.map (fun p => xOf p * p.theta))
      let sumX2 := sumList (windowData.map (fun p => xOf p * xOf p))
      some ((n * sumXY - sumX * sumY) / (n * sumX2 - sumX * sumX))

inductive Regime
  | wetting | drainage | drydown | stable | unknown
deriving DecidableEq

/-- EventDetection.classifyRegime. -/
def classifyRegime (history : List DataPoint) (theta_fc : Option ℝ) : Regime :=
  if history.length < 5 then Regime.unknown
  else match calculateDryingRate history slope_window with
  | none => Regime.unknown
  | some dryingRate =>
    let currentTheta := (lastD history).theta
    if 0.001 < dryingRate then Regime.wetting
    else if |dryingRate| < s_min then Regime.stable
    else match theta_fc with
      | some fc => if fc < currentTheta then Regime.drainage else Regime.drydown
      | none => if dryingRate < 0 then Regime.drydown else Regime.stable

structure PlateauResult where
  detected : Bool
  theta_fc_candidate : ℝ

/-- EventDetection.detectFCPlateau.  The candidate field carries the
median of the hold window when detected; the not-detected branches of the
code carry null, modelled here by the unused value 0. -/
def detectFCPlateau (history : List DataPoint) : PlateauResult :=
  if history.length < 20 then ⟨false, 0⟩
  else match calculateDryingRate history slope_window with
  | none => ⟨false, 0⟩
  | some dryingRate =>
    if |dryingRate| < s_min then
      let now := (lastD history).timestamp
      let plateauData := history.filter (fun h => decide (now - hold_hours * 3600 ≤ h.timestamp))
      if plateauData.length < 10 then ⟨false, 0⟩
      else ⟨true, medianVal (plateauData.map DataPoint.theta)⟩
    else ⟨false, 0⟩

/-! DynamicsModel (physics.js). -/

structure DynParams where
  kd : ℝ
  ku : ℝ
  beta : ℝ
  theta_min : ℝ

/-- Initial DynamicsModel parameters. -/
def dynInit : DynParams := ⟨kd_init, ku_init, beta_init, 0.05⟩

/-- DynamicsModel.drainageRate. -/
def drainageRate (d : DynParams) (theta theta_fc : ℝ) : ℝ :=
  if theta ≤ theta_fc then 0 else -d.kd * (theta - theta_fc)

/-- DynamicsModel.drydownRate. -/
def drydownRate (d : DynParams) (theta : ℝ) : ℝ :=
  if theta ≤ d.theta_min then 0 else -d.ku * (theta - d.theta_min) ^ d.beta

/-- DynamicsModel.fitDrainageParameter: log linear regression of
ln(theta - theta_fc) against hours over the points above field capacity,
keeping only points with theta - theta_fc > 0.001; the result is rejected
outside [0.001, 1.0]. -/
def fitDrainageParameter (drainageData : List DataPoint) (theta_fc : ℝ) : Option ℝ :=
  if drainageData.length < 5 then none
  else
    let validPoints := drainageData.filter (fun p => decide (theta_fc < p.theta))
    if validPoints.length < 5 then none
    else
      let t0 := (validPoints.headD defaultDP).timestamp
      let pts := validPoints.filter (fun p => decide (0.001 < p.theta - theta_fc))
      if pts.length < 5 then none
      else
        let xOf := fun (p : DataPoint) => (p.timestamp - t0) / 3600
        let yOf := fun (p : DataPoint) => Real.log (p.theta - theta_fc)
        let n := (pts.length : ℝ)
        let sumX := sumList (pts.map xOf)
        let sumY := sumList (pts.map yOf)
        let sumXY := sumList (pts.map (fun p => xOf p * yOf p))
        let sumX2 := sumList (pts.map (fun p => xOf p * xOf p))
        let slope := (n * sumXY - sumX * sumY) / (n * sumX2 - sumX * sumX)
        let kd := -slope
        if kd < 0.001 ∨ 1.0 < kd then none else some kd

structure DrydownFit where
  ku : ℝ
  beta : ℝ
  theta_min : ℝ

/-- DynamicsModel.fitDrydownParameters: simplified beta = 1 fit. -/
def fitDrydownParameters (drydownData : List DataPoint) : Option DrydownFit :=
  if drydownData.length < 10 then none
  else
    let t0 := (drydownData.headD defaultDP).timestamp
    let theta0 := (drydownData.headD defaultDP).theta
    let theta_end := (lastD drydownData).theta
    let t_end := ((lastD drydownData).timestamp - t0) / 3600
    let theta_min := minList (drydownData.map DataPoint.theta) - 0.01
    if theta_min < theta_end ∧ theta_min < theta0 ∧ 0 < t_end then
      let ku := -Real.log ((theta_end - theta_min) / (theta0 - theta_min)) / t_end
      if 0 < ku ∧ ku < 0.1 then some ⟨ku, 1.0, theta_min⟩ else none
    else none

/-! AutoCalibration (physics.js).  The mutable state of the
AutoCalibration object, of its DynamicsModel and the lastEventTime of its
EventDetection are gathered into one record. -/

inductive CalState
  | INIT
  | BASELINE_MONITORING
  | WETTING_EVENT
  | DRAINAGE_TRACKING
  | FC_ESTIMATE
  | DRYDOWN_FIT
  | NORMAL_OPERATION
deriving DecidableEq

structure CalCtx where
  state : CalState
  theta_fc_star : Option ℝ
  theta_refill_star : Option ℝ
  fc_history : List ℝ
  confidence : ℝ
  n_events : ℕ
  n_fc_updates : ℕ
  qc_pass_count : ℕ
  qc_total_count : ℕ
  currentEventStart : ℝ
  fc_candidate : ℝ
  dyn : DynParams
  lastEventTime : Option ℝ

/-- The AutoCalibration constructor state (currentEventStart and
fc_candidate are only read after being assigned; they start at the
placeholder 0). -/
def calCtx0 : CalCtx :=
  ⟨CalState.INIT, none, none, [], 0.2, 0, 0, 0, 0, 0, 0, dynInit, none⟩

/-- AutoCalibration.state_init: after 96 samples, seed theta_fc_star from
the van Genuchten default and theta_refill_star from the 5th percentile
of the observed thetas. -/
def state_init (soil : SoilModelR) (c : CalCtx) (history : List DataPoint) : CalCtx :=
  if history.length < 96 then c
  else
    let fc := soil.theta_fc
    let thetaValues := history.map DataPoint.theta
    let theta_dry := (percentile thetaValues (theta_dry_percentile * 100)).getD 0
    { c with
      theta_fc_star := some fc,
      theta_refill_star := some (fc - eta_refill * (fc - theta_dry)),
      state := CalState.BASELINE_MONITORING }

/-- AutoCalibration.state_baseline. -/
def state_baseline (c : CalCtx) (dp : DataPoint) (history : List DataPoint) : CalCtx :=
  let w := detectWetting c.lastEventTime history
  let c1 := { c with lastEventTime := w.lastEventTime }
  if w.detected then
    { c1 with
      n_events := c1.n_events + 1,
      state := CalState.WETTING_EVENT,
      currentEventStart := dp.timestamp }
  else c1

/-- AutoCalibration.state_wetting. -/
def state_wetting (c : CalCtx) (dp : DataPoint) : CalCtx :=
  if post_event_ignore < dp.timestamp - c.currentEventStart then
    { c with state := CalState.DRAINAGE_TRACKING }
  else c

/-- AutoCalibration.state_drainage: a detected plateau moves to
FC_ESTIMATE, but a drydown regime observed afterwards in the same tick
overrides the transition and abandons the event. -/
def state_drainage (c : CalCtx) (history : List DataPoint) : CalCtx :=
  let plateau := detectFCPlateau history
  let c1 :=
    if plateau.detected then
      { c with state := CalState.FC_ESTIMATE, fc_candidate := plateau.theta_fc_candidate }
    else c
  if classifyRegime history c1.theta_fc_star = Regime.drydown then
    { c1 with state := CalState.NORMAL_OPERATION }
  else c1

/-- Trailing 30 day window used by updateRefillThreshold. -/
def dryWindow (history : List DataPoint) : List DataPoint :=
  let now := (lastD history).timestamp
  history.filter (fun h => decide (now - theta_dry_window * 86400 ≤ h.timestamp))

/-- AutoCalibration.updateRefillThreshold: refresh theta_refill_star from
the 5th percentile over the trailing 30 day window once it holds more
than 100 samples. -/
def updateRefillThreshold (c : CalCtx) (history : List DataPoint) : CalCtx :=
  let recentData := dryWindow history
  if 100 < recentData.length then
    let theta_dry :=
      (percentile (recentData.map DataPoint.theta) (theta_dry_percentile * 100)).getD 0
    let fc := c.theta_fc_star.getD 0
    { c with theta_refill_star := some (fc - eta_refill * (fc - theta_dry)) }
  else c

/-- Loop of AutoCalibration.extractDrainageSegment and
extractDrydownSegment: walk indices from the end; prepend history[i] when
the regime of history.slice(0, i + 1) matches; stop at the first mismatch
once the accumulator is nonempty. -/
def extractSegmentLoop (target : Regime) (fc : Option ℝ) (history : List DataPoint) :
    ℕ → List DataPoint → List DataPoint
  | 0, acc => acc
  | k + 1, acc =>
    if classifyRegime (history.take (k + 1)) fc = target then
      extractSegmentLoop target fc history k (history.getD k defaultDP :: acc)
    else if acc ≠ [] then acc
    else extractSegmentLoop target fc history k acc

/-- AutoCalibration.extractDrainageSegment. -/
def extractDrainageSegment (c : CalCtx) (history : List DataPoint) : Option (List DataPoint) :=
  let seg := extractSegmentLoop Regime.drainage c.theta_fc_star history history.length []
  if 5 ≤ seg.length then some seg else none

/-- AutoCalibration.extractDrydownSegment. -/
def extractDrydownSegment (c : CalCtx) (history : List DataPoint) : Option (List DataPoint) :=
  let seg := extractSegmentLoop Regime.drydown c.theta_fc_star history history.length []
  if 10 ≤ seg.length then some seg else none

/-- AutoCalibration.state_fc_estimate: EWMA update of theta_fc_star, the
refill refresh, and the drainage fit. -/
def state_fc_estimate (c : CalCtx) (history : List DataPoint) : CalCtx :=
  let newFc :=
    match c.theta_fc_star with
    | none => c.fc_candidate
    | some f => ewmaO (some f) c.fc_candidate fc_update_lambda
  let c1 := { c with
    theta_fc_star := some newFc,
    fc_history := c.fc_history ++ [newFc],
    n_fc_updates := c.n_fc_updates + 1 }
  let c2 := updateRefillThreshold c1 history
  let c3 :=
    match extractDrainageSegment c2 history with
    | some seg =>
      if 5 ≤ seg.length then
        match fitDrainageParameter seg (c2.theta_fc_star.getD 0) with
        | some kd => { c2 with dyn := { c2.dyn with kd := kd } }
        | none => c2
      else c2
    | none => c2
  { c3 with state := CalState.DRYDOWN_FIT }

/-- AutoCalibration.state_drydown_fit. -/
def state_drydown_fit (c : CalCtx) (history : List DataPoint) : CalCtx :=
  let c1 :=
    if classifyRegime history c.theta_fc_star = Regime.drydown then
      match extractDrydownSegment c history with
      | some seg =>
        if 10 ≤ seg.length then
          match fitDrydownParameters seg with
          | some f =>
            { c with dyn := { kd := c.dyn.kd, ku := f.ku, beta := f.beta, theta_min := f.theta_min } }
          | none => c
        else c
      | none => c
    else c
  { c1 with state := CalState.NORMAL_OPERATION }

/-- AutoCalibration.state_normal. -/
def state_normal (c : CalCtx) (dp : DataPoint) (history : List DataPoint) : CalCtx :=
  let w := detectWetting c.lastEventTime history
  let c1 := { c with lastEventTime := w.lastEventTime }
  if w.detected then
    { c1 with
      n_events := c1.n_events + 1,
      state := CalState.WETTING_EVENT,
      currentEventStart := dp.timestamp }
  else c1

/-- AutoCalibration.updateConfidence. -/
def updateConfidence (c : CalCtx) : CalCtx :=
  let eventScore := min ((c.n_events : ℝ) / 8) 1.0
  let stabilityScore :=
    if 3 ≤ c.fc_history.length then Real.exp (-stdList c.fc_history / 0.02) else 0.5
  let qcScore :=
    if 0 < c.qc_total_count then (c.qc_pass_count : ℝ) / (c.qc_total_count : ℝ) else 0.5
  let fitScore : ℝ := 0.7
  let conf := 0.40 * eventScore + 0.25 * stabilityScore + 0.20 * qcScore + 0.15 * fitScore
  { c with confidence := clamp conf 0 1 }

/-- AutoCalibration.update: bump the QC counters, dispatch one state
machine tick, then refresh the confidence score. -/
def calUpdate (soil : SoilModelR) (c : CalCtx) (dp : DataPoint) (history : List DataPoint) :
    CalCtx :=
  let c1 := { c with
    qc_total_count := c.qc_total_count + 1,
    qc_pass_count := if dp.qc_valid then c.qc_pass_count + 1 else c.qc_pass_count }
  let c2 :=
    match c1.state with
    | CalState.INIT => state_init soil c1 history
    | CalState.BASELINE_MONITORING => state_baseline c1 dp history
    | CalState.WETTING_EVENT => state_wetting c1 dp
    | CalState.DRAINAGE_TRACKING => state_drainage c1 history
    | CalState.FC_ESTIMATE => state_fc_estimate c1 history
    | CalState.DRYDOWN_FIT => state_drydown_fit c1 history
    | CalState.NORMAL_OPERATION => state_normal c1 dp history
  updateConfidence c2

/-! PhysicsEngine (physics.js). -/

structure Metrics where
  theta_fc : ℝ
  theta_refill : Option ℝ
  psi_cm : ℝ
  psi_kPa : ℝ
  Se : ℝ
  K_cm_day : ℝ
  TAW_mm : ℝ
  AW_mm : ℝ
  Dr_mm : ℝ
  fractionDepleted : ℝ
  dryingRate_per_hr : Option ℝ
  regime : Regime
  status : Status
  urgency : Urgency
  confidence : ℝ
  calibration_state : CalState

/-- PhysicsEngine.calculateMetrics.  The expression
(calState.theta_fc_star || soil default) is falsy for null and for 0. -/
def calculateMetrics (soil : SoilModelR) (c : CalCtx) (history : List DataPoint)
    (dp : DataPoint) : Metrics :=
  let theta := dp.theta
  let theta_fc :=
    match c.theta_fc_star with
    | some f => if f = 0 then soil.theta_fc else f
    | none => soil.theta_fc
  let theta_refill := c.theta_refill_star
  let aw := availableWater soil theta 30
  let psi_cm := vanGenuchten_psi soil.params theta
  let dryingRate := calculateDryingRate history slope_window
  let regime := classifyRegime history (some theta_fc)
  let st := getIrrigationStatus theta theta_fc theta_refill dryingRate
  ⟨theta_fc, theta_refill, psi_cm, psi_cm / 10, effectiveSaturation soil.params theta,
   hydraulicConductivity soil.params theta, aw.TAW_mm, aw.AW_mm, aw.Dr_mm,
   aw.fractionDepleted, dryingRate, regime, st.state, st.urgency, c.confidence, c.state⟩

/-- The mutable state of a PhysicsEngine: the calibration context and the
trailing history ring buffer. -/
structure Engine where
  cal : CalCtx
  history : List DataPoint

def engine0 : Engine := ⟨calCtx0, []⟩

def maxHistoryLength : ℕ := 2880

structure StepResult where
  engine : Engine
  sample : DataPoint
  metrics : Metrics

/-- PhysicsEngine.processSensorReading: calibrate, quality control, push
to the ring buffer, tick the auto calibration only when the sample passed
quality control, then compute the derived metrics. -/
def processSensorReading (soil : SoilModelR) (e : Engine) (raw temp_c timestamp : ℝ) :
    StepResult :=
  let theta := calibrate raw temp_c
  let qc := qualityControl theta temp_c e.history
  let dp : DataPoint := ⟨timestamp, raw, temp_c, theta, qc.valid, qc.flags⟩
  let hist1 := e.history ++ [dp]
  let hist2 := if maxHistoryLength < hist1.length then hist1.drop 1 else hist1
  let cal2 := if qc.valid then calUpdate soil e.cal dp hist2 else e.cal
  ⟨⟨cal2, hist2⟩, dp, calculateMetrics soil cal2 hist2 dp⟩

/-! Persistence layer (DBManager) and the firmware loop.  The samples
table has timestamp as INTEGER PRIMARY KEY, so a row insert fails exactly
when the timestamp already exists; other columns are abstracted into the
payload fields below. -/

structure Row where
  timestamp : ℤ
  theta : ℚ
  seq : ℤ
deriving DecidableEq

def hasTimestamp (db : List Row) (t : ℤ) : Bool := db.any (fun r => r.timestamp = t)

/-- One sqlite3_step of the prepared INSERT: fails (none) on a primary
key conflict, otherwise appends the row. -/
def insertSample (db : List Row) (r : Row) : Option (List Row) :=
  if hasTimestamp db r.timestamp then none else some (db ++ [r])

/-- One loop iteration of DBManager::writeSampleBatch: a failing step is
only logged, so it leaves the table unchanged and the loop continues. -/
def stepIns (db : List Row) (r : Row) : List Row :=
  match insertSample db r with
  | none => db
  | some db2 => db2

/-- DBManager::writeSampleBatch: BEGIN, step every row (a failing step is
only logged and the loop continues), COMMIT, return true.  The result is
the committed table plus the flag the function returns. -/
def writeSampleBatch (db : List Row) (samples : List Row) : List Row × Bool :=
  (samples.foldl stepIns db, true)

/-- The flush step of loop() in main.cpp: once the buffer has reached
BATCH_SIZE = 6 entries, writeSampleBatch is called and the buffer is
cleared unconditionally. -/
def flushIfFull (db : List Row) (buffer : List Row) : List Row × List Row :=
  if 6 ≤ buffer.length then ((writeSampleBatch db buffer).1, []) else (db, buffer)

/-- Insertion step of the ORDER BY timestamp ASC sort. -/
def insertByTs (r : Row) : List Row → List Row
  | [] => [r]
  | b :: t => if r.timestamp ≤ b.timestamp then r :: b :: t else b :: insertByTs r t

/-- ORDER BY timestamp ASC as an insertion sort. -/
def sortByTs : List Row → List Row
  | [] => []
  | a :: t => insertByTs a (sortByTs t)

/-- DBManager::getSamplesInRange: SELECT ... WHERE timestamp BETWEEN start
AND end ORDER BY timestamp ASC LIMIT 200. -/
def getSamplesInRange (db : List Row) (startTs endTs : ℤ) : List Row :=
  (sortByTs (db.filter (fun r => decide (startTs ≤ r.timestamp ∧ r.timestamp ≤ endTs)))).take 200

/-! Concrete inputs used by the theorems below. -/

/-- A quiet data point with the given theta. -/
def cxDP (th : ℝ) : DataPoint := ⟨0, 0, 25, th, true, []⟩

/-- A 96 sample history of a wet site: theta rises from 0.44 to 0.45. -/
def hist96 : List DataPoint := List.replicate 48 (cxDP 0.44) ++ List.replicate 48 (cxDP 0.45)

def dp0 : DataPoint := cxDP 0.45

/-- A soil model with rational targets, used to instantiate hypotheses. -/
def soilW : SoilModelR := ⟨⟨0.078, 0.43, 0.036, 1.56, 25.0, 1 - 1 / 1.56⟩, 0.2, 0.1⟩

/-- A calibration context whose field capacity has been learned. -/
def calW : CalCtx := { calCtx0 with theta_fc_star := some 0.2 }

/-- A dry constant history of the given length. -/
def histLow (n : ℕ) : List DataPoint := List.replicate n (cxDP 0.1)

def rowA : Row := ⟨100, 1/4, 0⟩
def rowB : Row := ⟨200, 2/5, 1⟩
def db0 : List Row := [rowA]
/-- A batch whose first row collides with the stored timestamp 100. -/
def batchBad : List Row := [⟨100, 3/10, 1⟩, rowB]
/-- A full buffer (BATCH_SIZE = 6) whose first row collides with db0. -/
def buffer6 : List Row :=
  [⟨100, 3/10, 1⟩, ⟨200, 2/5, 2⟩, ⟨210, 2/5, 3⟩, ⟨220, 2/5, 4⟩, ⟨230, 2/5, 5⟩, ⟨240, 2/5, 6⟩]
def dbW : List Row := [⟨2, 1/10, 0⟩, ⟨1, 1/5, 1⟩]

end

/-! Supporting lemmas. -/

namespace Lemmas

theorem mem_insertByTs (x r : Row) (l : List Row) :
    x ∈ insertByTs r l ↔ x = r ∨ x ∈ l := by
  induction l with
  | nil => simp [insertByTs]
  | cons b t ih =>
    by_cases h : r.timestamp ≤ b.timestamp
    · simp only [insertByTs, if_pos h, List.mem_cons]
    · simp only [insertByTs, if_neg h, List.mem_cons, ih]
      tauto

theorem pairwise_insertByTs (r : Row) (l : List Row)
    (h : l.Pairwise (fun a b => a.timestamp ≤ b.timestamp)) :
    (insertByTs r l).Pairwise (fun a b => a.timestamp ≤ b.timestamp) := by
  induction l with
  | nil => simp [insertByTs]
  | cons b t ih =>
    rcases List.pairwise_cons.mp h with ⟨hb, ht⟩
    by_cases hrb : r.timestamp ≤ b.timestamp
    · rw [insertByTs, if_pos hrb]
      refine List.pairwise_cons.mpr ⟨?_, h⟩
      intro x hx
      rcases List.mem_cons.mp hx with rfl | hx
      · exact hrb
      · exact hrb.trans (hb x hx)
    · rw [insertByTs, if_neg hrb]
      refine List.pairwise_cons.mpr ⟨?_, ih ht⟩
      intro x hx
      rcases (mem_insertByTs x r t).mp hx with rfl | hx
      · exact le_of_not_le hrb
      · exact hb x hx

theorem pairwise_sortByTs (l : List Row) :
    (sortByTs l).Pairwise (fun a b => a.timestamp ≤ b.timestamp) := by
  induction l with
  | nil => simp [sortByTs]
  | cons a t ih => exact pairwise_insertByTs a (sortByTs t) ih

theorem mem_sortByTs (x : Row) (l : List Row) : x ∈ sortByTs l ↔ x ∈ l := by
  induction l with
  | nil => simp [sortByTs]
  | cons a t ih => simp [sortByTs, mem_insertByTs, ih]

theorem mem_stepIns (r : Row) (db : List Row) (b : Row) (h : r ∈ db) : r ∈ stepIns db b := by
  rw [stepIns, insertSample]
  split_ifs with hts
  · exact h
  · exact List.mem_append_left _ h

theorem mem_foldl_stepIns (r : Row) (db : List Row) (l : List Row) (h : r ∈ db) :
    r ∈ l.foldl stepIns db := by
  induction l generalizing db with
  | nil => exact h
  | cons b t ih => exact ih (stepIns db b) (mem_stepIns r db b h)

theorem hasTimestamp_stepIns (db : List Row) (b : Row) (t : ℤ)
    (hdb : hasTimestamp db t = false) (hb : b.timestamp ≠ t) :
    hasTimestamp (stepIns db b) t = false := by
  rw [stepIns, insertSample]
  split_ifs with hts
  · exact hdb
  · show hasTimestamp (db ++ [b]) t = false
    rw [hasTimestamp] at hdb ⊢
    simp only [List.any_append, List.any_cons, List.any_nil, Bool.or_false,
      Bool.or_eq_false_iff]
    exact ⟨hdb, by simp [hb]⟩

theorem mem_foldl_of_fresh (batch : List Row) :
    ∀ db r, r ∈ batch → hasTimestamp db r.timestamp = false →
      (batch.filter (fun b => decide (b.timestamp = r.timestamp))).length = 1 →
      r ∈ batch.foldl stepIns db := by
  induction batch with
  | nil => intro db r hr _ _; cases hr
  | cons b t ih =>
    intro db r hr hdb huniq
    rw [List.foldl_cons]
    rcases List.mem_cons.mp hr with rfl | hrt
    · have hmem : r ∈ stepIns db r := by
        rw [stepIns, insertSample, if_neg (by simp [hdb])]
        exact List.mem_append_right _ (List.mem_singleton.mpr rfl)
      exact mem_foldl_stepIns r _ t hmem
    · have hbts : b.timestamp ≠ r.timestamp := by
        intro heq
        rw [List.filter_cons, if_pos (by simp [heq]), List.length_cons] at huniq
        have h0 : (t.filter (fun x => decide (x.timestamp = r.timestamp))).length = 0 := by
          omega
        have hmemf : r ∈ t.filter (fun x => decide (x.timestamp = r.timestamp)) :=
          List.mem_filter.mpr ⟨hrt, by simp⟩
        rw [List.length_eq_zero] at h0
        rw [h0] at hmemf
        cases hmemf
      have huniq2 : (t.filter (fun x => decide (x.timestamp = r.timestamp))).length = 1 := by
        rwa [List.filter_cons, if_neg (by simp [hbts])] at huniq
      exact ih (stepIns db b) r hrt (hasTimestamp_stepIns db b _ hdb hbts) huniq2

end Lemmas

/-! Claim theorems. -/

/-- Closed form of rawToVWC on the five default breakpoints. -/
theorem rawToVWC_eq (raw : ℝ) :
    rawToVWC raw =
      if raw ≤ 250 then 0
      else if 1000 ≤ raw then 0.50
      else if raw ≤ 450 then lerp 0 0.10 ((raw - 250) / 200)
      else if raw ≤ 650 then lerp 0.10 0.25 ((raw - 450) / 200)
      else if raw ≤ 850 then lerp 0.25 0.40 ((raw - 650) / 200)
      else lerp 0.40 0.50 ((raw - 850) / 150) := by
  rw [rawToVWC]
  have hdrop : factoryPoints.drop 1 = [(450, 0.10), (650, 0.25), (850, 0.40), (1000, 0.50)] := by
    rw [factoryPoints]
    rfl
  rw [hdrop]
  split_ifs with h1 h2 h3 h4 h5
  · norm_num
  · norm_num
  · rw [findSegment, if_pos (by exact_mod_cast h3)]
    norm_num
  · rw [findSegment, if_neg (by exact_mod_cast h3), findSegment, if_pos (by exact_mod_cast h4)]
    norm_num
  · rw [findSegment, if_neg (by exact_mod_cast h3), findSegment, if_neg (by exact_mod_cast h4),
      findSegment, if_pos (by exact_mod_cast h5)]
    norm_num
  · rw [findSegment, if_neg (by exact_mod_cast h3), findSegment, if_neg (by exact_mod_cast h4),
      findSegment, if_neg (by exact_mod_cast h5), findSegment, if_pos (by push_neg at h2; linarith)]
    norm_num

/-- Claim C10: the factory raw to VWC mapping is monotonically
nondecreasing, and clamps to the endpoint values 0 and 0.50 outside the
breakpoint span. -/
theorem claim_C10 (raw1 raw2 : ℝ) (h : raw1 ≤ raw2) :
    rawToVWC raw1 ≤ rawToVWC raw2 ∧
    (raw1 ≤ 250 → rawToVWC raw1 = 0) ∧
    (1000 ≤ raw2 → rawToVWC raw2 = 0.50) := by
  refine ⟨?_, ?_, ?_⟩
  · rw [rawToVWC_eq raw1, rawToVWC_eq raw2]
    split_ifs <;>
      first
      | linarith
      | (simp only [lerp]; linarith)
  · intro hlo
    rw [rawToVWC_eq, if_pos hlo]
  · intro hhi
    rw [rawToVWC_eq, if_neg (by linarith), if_pos hhi]

/-- Witness for claim C10 at raw readings 300 and 500. -/
theorem claim_C10_witness :
    rawToVWC 300 ≤ rawToVWC 500 ∧ ((300 : ℝ) ≤ 250 → rawToVWC 300 = 0) ∧
    ((1000 : ℝ) ≤ 500 → rawToVWC 500 = 0.50) :=
  claim_C10 300 500 (by norm_num)

/-- Exactness of the van Genuchten round trip for any parameter set with
theta_r below theta_s, positive alpha, n above 1 and m = 1 - 1/n, on the
open interval the code clamps to. -/
theorem vg_roundtrip (p : SoilParams) (theta : ℝ)
    (hrs : p.theta_r < p.theta_s) (ha : 0 < p.alpha) (hn : 1 < p.n)
    (hm : p.m = 1 - 1 / p.n)
    (h1 : p.theta_r + 0.001 < theta) (h2 : theta < p.theta_s - 0.001) :
    vanGenuchten_theta p (vanGenuchten_psi p theta) = theta := by
  have hn0 : p.n ≠ 0 := ne_of_gt (lt_trans one_pos hn)
  have hm0 : 0 < p.m := by
    rw [hm]
    have hlt : 1 / p.n < 1 := by
      rw [div_lt_one (lt_trans one_pos hn)]
      exact hn
    linarith
  have hmne : p.m ≠ 0 := ne_of_gt hm0
  have hden : 0 < p.theta_s - p.theta_r := by linarith
  have hclamp : clamp theta (p.theta_r + 0.001) (p.theta_s - 0.001) = theta := by
    rw [clamp, max_eq_left (le_of_lt h1), min_eq_left (le_of_lt h2)]
  have hSe0 : 0 < (theta - p.theta_r) / (p.theta_s - p.theta_r) :=
    div_pos (by linarith) hden
  have hSe1 : (theta - p.theta_r) / (p.theta_s - p.theta_r) < 1 := by
    rw [div_lt_one hden]
    linarith
  have hx : 1 < 1 / ((theta - p.theta_r) / (p.theta_s - p.theta_r)) := by
    rw [lt_div_iff₀ hSe0]
    linarith
  have hx0 : (0 : ℝ) < 1 / ((theta - p.theta_r) / (p.theta_s - p.theta_r)) :=
    lt_trans one_pos hx
  have hm1 : 0 < 1 / p.m := by positivity
  have ht : 1 < (1 / ((theta - p.theta_r) / (p.theta_s - p.theta_r))) ^ (1 / p.m) :=
    (Real.one_lt_rpow_iff_of_pos hx0).mpr (Or.inl ⟨hx, hm1⟩)
  have hterm : 0 < (1 / ((theta - p.theta_r) / (p.theta_s - p.theta_r))) ^ (1 / p.m) - 1 := by
    linarith
  have hpsieq : vanGenuchten_psi p theta =
      ((1 / ((theta - p.theta_r) / (p.theta_s - p.theta_r))) ^ (1 / p.m) - 1) ^ (1 / p.n) /
        p.alpha := by
    rw [vanGenuchten_psi]
    simp only [hclamp]
  have hpsi : 0 < vanGenuchten_psi p theta := by
    rw [hpsieq]
    exact div_pos (Real.rpow_pos_of_pos hterm _) ha
  rw [vanGenuchten_theta, if_neg (not_le.mpr hpsi), hpsieq]
  have hcancel : p.alpha *
      (((1 / ((theta - p.theta_r) / (p.theta_s - p.theta_r))) ^ (1 / p.m) - 1) ^ (1 / p.n) /
        p.alpha) =
      ((1 / ((theta - p.theta_r) / (p.theta_s - p.theta_r))) ^ (1 / p.m) - 1) ^ (1 / p.n) := by
    field_simp
  rw [hcancel, ← Real.rpow_mul (le_of_lt hterm)]
  rw [show ((1 / ((theta - p.theta_r) / (p.theta_s - p.theta_r))) ^ (1 / p.m) - 1) ^
      ((1 / p.n) * p.n) =
      ((1 / ((theta - p.theta_r) / (p.theta_s - p.theta_r))) ^ (1 / p.m) - 1) ^ (1 : ℝ) from by
    rw [one_div_mul_cancel hn0]]
  rw [Real.rpow_one]
  rw [show (1 : ℝ) + ((1 / ((theta - p.theta_r) / (p.theta_s - p.theta_r))) ^ (1 / p.m) - 1) =
      (1 / ((theta - p.theta_r) / (p.theta_s - p.theta_r))) ^ (1 / p.m) from by ring]
  rw [← Real.rpow_mul (le_of_lt hx0), one_div_mul_cancel hmne, Real.rpow_one]
  have hsub : theta - p.theta_r ≠ 0 := ne_of_gt (by linarith)
  field_simp

/-- Claim C7: with the default loam parameters, the van Genuchten round
trip recovers theta within 1e-4 on (theta_r + eps, theta_s - eps); the
recovery is in fact exact there. -/
theorem claim_C7 (theta : ℝ)
    (h1 : defaultSoilModel.params.theta_r + 0.001 < theta)
    (h2 : theta < defaultSoilModel.params.theta_s - 0.001) :
    |vanGenuchten_theta defaultSoilModel.params
        (vanGenuchten_psi defaultSoilModel.params theta) - theta| ≤ 1e-4 := by
  rw [vg_roundtrip defaultSoilModel.params theta (by norm_num [defaultSoilModel, soilModelOf])
    (by norm_num [defaultSoilModel, soilModelOf]) (by norm_num [defaultSoilModel, soilModelOf])
    (by norm_num [defaultSoilModel, soilModelOf]) h1 h2]
  norm_num

/-- Witness for claim C7 at theta = 0.25. -/
theorem claim_C7_witness :
    defaultSoilModel.params.theta_r + 0.001 < 0.25 ∧
    (0.25 : ℝ) < defaultSoilModel.params.theta_s - 0.001 ∧
    |vanGenuchten_theta defaultSoilModel.params
        (vanGenuchten_psi defaultSoilModel.params 0.25) - 0.25| ≤ 1e-4 :=
  ⟨by norm_num [defaultSoilModel, soilModelOf], by norm_num [defaultSoilModel, soilModelOf],
   claim_C7 0.25 (by norm_num [defaultSoilModel, soilModelOf])
     (by norm_num [defaultSoilModel, soilModelOf])⟩

namespace Lemmas

theorem insertSorted_of_le_head (a : ℝ) (l : List ℝ) (h : ∀ b ∈ l.head?, a ≤ b) :
    insertSorted a l = a :: l := by
  cases l with
  | nil => rfl
  | cons b t => rw [insertSorted, if_pos (h b rfl)]

theorem sortList_of_chain : ∀ l : List ℝ, l.Chain' (· ≤ ·) → sortList l = l := by
  intro l
  induction l with
  | nil => intro _; rfl
  | cons a t ih =>
    intro h
    rcases List.chain'_cons'.mp h with ⟨hh, ht⟩
    rw [sortList, ih ht]
    exact insertSorted_of_le_head a t hh

theorem pairwise_le_replicate_append (m n : ℕ) (c d : ℝ) (hcd : c ≤ d) :
    (List.replicate m c ++ List.replicate n d).Pairwise (· ≤ ·) := by
  refine List.pairwise_append.mpr ⟨List.pairwise_replicate.mpr (Or.inr (le_refl c)),
    List.pairwise_replicate.mpr (Or.inr (le_refl d)), ?_⟩
  intro a ha b hb
  rw [List.eq_of_mem_replicate ha, List.eq_of_mem_replicate hb]
  exact hcd

theorem sortList_replicate (n : ℕ) (c : ℝ) :
    sortList (List.replicate n c) = List.replicate n c :=
  sortList_of_chain _ (List.pairwise_replicate.mpr (Or.inr (le_refl c))).chain'

theorem getD_replicate' {α : Type} (n i : ℕ) (c d : α) (h : i < n) :
    (List.replicate n c).getD i d = c := by
  rw [List.getD_eq_getElem _ _ (by simpa using h)]
  simp

theorem filter_replicate_of_pos {α : Type} (p : α → Bool) (a : α) (h : p a = true) :
    ∀ n, (List.replicate n a).filter p = List.replicate n a := by
  intro n
  induction n with
  | zero => rfl
  | succ k ih =>
    rw [List.replicate_succ, List.filter_cons, if_pos h, ih, ← List.replicate_succ]

theorem percentileVal_replicate (n : ℕ) (c : ℝ) (hn : 0 < n) (p : ℝ) (hp0 : 0 ≤ p)
    (hp1 : p ≤ 100) : percentileVal (List.replicate n c) p = c := by
  have hn1 : (1 : ℝ) ≤ (n : ℝ) := by exact_mod_cast hn
  have hidx0 : 0 ≤ p / 100 * ((n : ℝ) - 1) := by
    apply mul_nonneg (by positivity)
    linarith
  have hidx1 : p / 100 * ((n : ℝ) - 1) ≤ (n : ℝ) - 1 := by
    have h1 : p / 100 ≤ 1 := (div_le_one (by norm_num)).mpr hp1
    nlinarith
  have hfl : ⌊p / 100 * ((n : ℝ) - 1)⌋₊ < n := by
    have hlow : (⌊p / 100 * ((n : ℝ) - 1)⌋₊ : ℝ) < (n : ℝ) := by
      have := Nat.floor_le hidx0
      linarith
    exact_mod_cast hlow
  have hcl : ⌈p / 100 * ((n : ℝ) - 1)⌉₊ < n := by
    have h2 : ⌈p / 100 * ((n : ℝ) - 1)⌉₊ ≤ n - 1 := by
      rw [Nat.ceil_le, Nat.cast_sub (by omega), Nat.cast_one]
      exact hidx1
    omega
  simp only [percentileVal, sortList_replicate, List.length_replicate]
  rw [getD_replicate' _ _ _ _ hfl, getD_replicate' _ _ _ _ hcl]
  ring

theorem sortList_theta_blocks :
    sortList (List.replicate 48 (0.44 : ℝ) ++ List.replicate 48 0.45) =
      List.replicate 48 (0.44 : ℝ) ++ List.replicate 48 0.45 :=
  sortList_of_chain _ (pairwise_le_replicate_append 48 48 0.44 0.45 (by norm_num)).chain'

theorem percentileVal_theta_blocks :
    percentileVal (List.replicate 48 (0.44 : ℝ) ++ List.replicate 48 0.45)
      (theta_dry_percentile * 100) = 0.44 := by
  have hf : ⌊(19 / 4 : ℝ)⌋₊ = 4 := by
    rw [Nat.floor_eq_iff (by norm_num)]
    norm_num
  have hc : ⌈(19 / 4 : ℝ)⌉₊ = 5 := by
    rw [Nat.ceil_eq_iff (by norm_num)]
    norm_num
  have hidx : theta_dry_percentile * 100 / 100 *
      (((List.replicate 48 (0.44 : ℝ) ++ List.replicate 48 0.45).length : ℝ) - 1) =
      19 / 4 := by
    rw [theta_dry_percentile]
    norm_num
  simp only [percentileVal, sortList_theta_blocks, hidx, hf, hc]
  rw [List.getD_append _ _ _ _ (by simp), List.getD_append _ _ _ _ (by simp),
    getD_replicate' _ _ _ _ (by norm_num), getD_replicate' _ _ _ _ (by norm_num)]
  norm_num

/-- For any positive potential, the van Genuchten retention value stays
strictly below theta_s. -/
theorem vg_theta_lt_theta_s (p : SoilParams) (psi : ℝ) (hpsi : 0 < psi)
    (hrs : p.theta_r < p.theta_s) (hap : 0 < p.alpha * psi) (hm : 0 < p.m) :
    vanGenuchten_theta p psi < p.theta_s := by
  rw [vanGenuchten_theta, if_neg (not_le.mpr hpsi)]
  have hbase : (1 : ℝ) < 1 + (p.alpha * psi) ^ p.n := by
    have := Real.rpow_pos_of_pos hap p.n
    linarith
  have hT : (1 : ℝ) < (1 + (p.alpha * psi) ^ p.n) ^ p.m :=
    (Real.one_lt_rpow_iff_of_pos (by linarith)).mpr (Or.inl ⟨hbase, hm⟩)
  have hdiv : (p.theta_s - p.theta_r) / (1 + (p.alpha * psi) ^ p.n) ^ p.m <
      p.theta_s - p.theta_r := div_lt_self (by linarith) hT
  linarith

theorem defaultSoilModel_fc_lt : defaultSoilModel.theta_fc < 0.43 :=
  vg_theta_lt_theta_s defaultSoilModel.params 330 (by norm_num)
    (by norm_num [defaultSoilModel, soilModelOf])
    (by norm_num [defaultSoilModel, soilModelOf])
    (by norm_num [defaultSoilModel, soilModelOf])

/-- Evaluation of one tick of AutoCalibration.update from the INIT state
with a long enough history: it seeds both calibration targets. -/
theorem calUpdate_init_eval (soil : SoilModelR) (c : CalCtx) (dp : DataPoint)
    (history : List DataPoint) (hst : c.state = CalState.INIT)
    (hlen : ¬ history.length < 96) :
    (calUpdate soil c dp history).theta_fc_star = some soil.theta_fc ∧
    (calUpdate soil c dp history).theta_refill_star =
      some (soil.theta_fc - eta_refill * (soil.theta_fc -
        (percentile (history.map DataPoint.theta) (theta_dry_percentile * 100)).getD 0)) := by
  obtain ⟨st, fc, rf, fh, cf, ne1, nf, qp, qt, ce, fcand, dy, levt⟩ := c
  simp only at hst
  subst hst
  exact ⟨by simp [calUpdate, state_init, updateConfidence, hlen],
    by simp [calUpdate, state_init, updateConfidence, hlen]⟩

theorem hist96_map :
    hist96.map DataPoint.theta = List.replicate 48 (0.44 : ℝ) ++ List.replicate 48 0.45 := by
  rw [hist96]
  simp [cxDP]

theorem hist96_dry :
    (percentile (hist96.map DataPoint.theta) (theta_dry_percentile * 100)).getD 0 = 0.44 := by
  rw [hist96_map, percentile, if_neg (by simp), Option.getD_some]
  exact percentileVal_theta_blocks

end Lemmas

/-- Claim C1 counterexample: from the INIT state, seeding on the wet
96 sample history hist96 (all thetas at 0.44 or 0.45) sets both targets
but produces theta_refill_star strictly above theta_fc_star, because the
5th percentile of the history (0.44) exceeds the van Genuchten default
field capacity, which is below theta_s = 0.43. -/
theorem claim_C1_counterexample :
    (calUpdate defaultSoilModel calCtx0 dp0 hist96).theta_fc_star ≠ none ∧
    (calUpdate defaultSoilModel calCtx0 dp0 hist96).theta_refill_star ≠ none ∧
    (calUpdate defaultSoilModel calCtx0 dp0 hist96).theta_fc_star.getD 0 <
      (calUpdate defaultSoilModel calCtx0 dp0 hist96).theta_refill_star.getD 0 := by
  obtain ⟨h1, h2⟩ := Lemmas.calUpdate_init_eval defaultSoilModel calCtx0 dp0 hist96 rfl
    (by simp [hist96])
  rw [Lemmas.hist96_dry] at h2
  refine ⟨by rw [h1]; exact Option.some_ne_none _, by rw [h2]; exact Option.some_ne_none _, ?_⟩
  rw [h1, h2, Option.getD_some, Option.getD_some, eta_refill]
  have hfc := Lemmas.defaultSoilModel_fc_lt
  linarith

/-- Claim C1 as amended: after INIT seeding, and after any refresh of the
refill threshold, theta_refill_star is at most theta_fc_star provided the
5th percentile theta_dry of the window does not exceed the field capacity
in effect; the seeding and refresh formula exceeds theta_fc_star exactly
when theta_dry does. -/
theorem claim_C1 :
    (∀ (soil : SoilModelR) (c : CalCtx) (dp : DataPoint) (history : List DataPoint),
      c.state = CalState.INIT → ¬ history.length < 96 →
      (percentile (history.map DataPoint.theta) (theta_dry_percentile * 100)).getD 0 ≤
        soil.theta_fc →
      (calUpdate soil c dp history).theta_refill_star.getD 0 ≤
        (calUpdate soil c dp history).theta_fc_star.getD 0) ∧
    (∀ (c : CalCtx) (history : List DataPoint) (f : ℝ),
      c.theta_fc_star = some f → 100 < (dryWindow history).length →
      (percentile ((dryWindow history).map DataPoint.theta)
        (theta_dry_percentile * 100)).getD 0 ≤ f →
      (updateRefillThreshold c history).theta_refill_star.getD 0 ≤ f) := by
  constructor
  · intro soil c dp history hst hlen hdry
    obtain ⟨h1, h2⟩ := Lemmas.calUpdate_init_eval soil c dp history hst hlen
    rw [h1, h2, Option.getD_some, Option.getD_some, eta_refill]
    linarith
  · intro c history f hfc hlen hdry
    simp only [updateRefillThreshold]
    rw [if_pos hlen]
    simp only [hfc, Option.getD_some]
    rw [eta_refill]
    linarith

/-- Witness for claim C1 as amended: on a dry constant history at
theta = 0.1 the seeded refill threshold stays below the field capacity
0.2, and a refresh with a learned field capacity 0.2 stays below it. -/
theorem claim_C1_witness :
    ((calUpdate soilW calCtx0 (cxDP 0.1) (histLow 96)).theta_refill_star.getD 0 ≤
      (calUpdate soilW calCtx0 (cxDP 0.1) (histLow 96)).theta_fc_star.getD 0) ∧
    ((updateRefillThreshold calW (histLow 101)).theta_refill_star.getD 0 ≤ 0.2) := by
  have hp0 : (0 : ℝ) ≤ theta_dry_percentile * 100 := by
    rw [theta_dry_percentile]
    norm_num
  have hp1 : theta_dry_percentile * 100 ≤ 100 := by
    rw [theta_dry_percentile]
    norm_num
  have hmap : ∀ n, (histLow n).map DataPoint.theta = List.replicate n (0.1 : ℝ) := by
    intro n
    rw [histLow]
    simp [cxDP]
  constructor
  · apply claim_C1.1 soilW calCtx0 (cxDP 0.1) (histLow 96) rfl (by simp [histLow])
    rw [hmap 96, percentile, if_neg (by simp), Option.getD_some,
      Lemmas.percentileVal_replicate 96 0.1 (by norm_num) _ hp0 hp1]
    norm_num [soilW]
  · have hwin : dryWindow (histLow 101) = histLow 101 := by
      rw [dryWindow, histLow]
      have hlast : lastD (List.replicate 101 (cxDP 0.1)) = cxDP 0.1 := by
        rw [lastD]
        simp only [List.length_replicate]
        exact Lemmas.getD_replicate' _ _ _ _ (by norm_num)
      rw [hlast]
      apply Lemmas.filter_replicate_of_pos
      apply decide_eq_true
      rw [cxDP, theta_dry_window]
      norm_num
    apply claim_C1.2 calW (histLow 101) 0.2 rfl (by rw [hwin, histLow]; simp)
    rw [hwin, hmap 101, percentile, if_neg (by simp), Option.getD_some,
      Lemmas.percentileVal_replicate 101 0.1 (by norm_num) _ hp0 hp1]
    norm_num

namespace Lemmas

theorem calibrate_650_100 : calibrate 650 100 = 0.25 := by
  have h1 : rawToVWC 650 = 0.25 := by
    rw [rawToVWC_eq]
    norm_num [lerp]
  have h2 : temperatureCorrection (siteCorrectionApply (rawToVWC 650)) 100 = 0.25 := by
    rw [h1, siteCorrectionApply, siteGain, siteOffset, temperatureCorrection, a_temp]
    norm_num
  rw [calibrate, h2, clamp, theta_bound_lo, theta_bound_hi,
    max_eq_left (by norm_num), min_eq_left (by norm_num)]

theorem qc_650_100_engine0 :
    qualityControl (calibrate 650 100) 100 engine0.history =
      ⟨false, [QCFlag.TEMP_OUT_OF_RANGE]⟩ := by
  rw [calibrate_650_100, qualityControl]
  norm_num [engine0, theta_bound_lo, theta_bound_hi]

theorem step650_qc_false :
    (processSensorReading defaultSoilModel engine0 650 100 0).sample.qc_valid = false := by
  simp only [processSensorReading]
  rw [qc_650_100_engine0]

end Lemmas

/-- Claim C2: on a sample with qc_valid false the auto calibration is not
ticked: the whole calibration context (state machine state, theta_fc_star,
theta_refill_star, fitted dynamics parameters, counters and event
bookkeeping) is identical before and after processSensorReading. -/
theorem claim_C2 (soil : SoilModelR) (e : Engine) (raw temp_c ts : ℝ)
    (h : (processSensorReading soil e raw temp_c ts).sample.qc_valid = false) :
    (processSensorReading soil e raw temp_c ts).engine.cal = e.cal := by
  simp only [processSensorReading] at h ⊢
  rw [h]
  simp

/-- Witness for claim C2: the sample (raw 650, temperature 100) fails
quality control with TEMP_OUT_OF_RANGE, and the calibration context of a
fresh engine is unchanged by it. -/
theorem claim_C2_witness :
    (processSensorReading defaultSoilModel engine0 650 100 0).sample.qc_valid = false ∧
    (processSensorReading defaultSoilModel engine0 650 100 0).engine.cal = engine0.cal :=
  ⟨Lemmas.step650_qc_false,
   claim_C2 defaultSoilModel engine0 650 100 0 Lemmas.step650_qc_false⟩

/-- Claim C9 is contradicted by the code: because processSensorReading
only calls AutoCalibration.update on samples that passed quality control,
the QC counters are not updated on an invalid sample.  At the failing
input (raw 650, temperature 100 so that qc_valid is false) the total
count stays at 0 instead of rising to 1. -/
theorem claim_C9 :
    (processSensorReading defaultSoilModel engine0 650 100 0).sample.qc_valid = false ∧
    (processSensorReading defaultSoilModel engine0 650 100 0).engine.cal.qc_total_count =
      engine0.cal.qc_total_count ∧
    engine0.cal.qc_total_count = 0 := by
  refine ⟨Lemmas.step650_qc_false, ?_, rfl⟩
  simp only [processSensorReading]
  rw [Lemmas.qc_650_100_engine0]
  simp

/-- Claim C8: for every start at most end and every database contents,
getSamplesInRange returns at most 200 samples, ordered ascending by
timestamp, all with timestamps inside the closed range. -/
theorem claim_C8 (db : List Row) (startTs endTs : ℤ) (_hse : startTs ≤ endTs) :
    (getSamplesInRange db startTs endTs).length ≤ 200 ∧
    (getSamplesInRange db startTs endTs).Pairwise (fun a b => a.timestamp ≤ b.timestamp) ∧
    ∀ r ∈ getSamplesInRange db startTs endTs, startTs ≤ r.timestamp ∧ r.timestamp ≤ endTs := by
  refine ⟨?_, ?_, ?_⟩
  · rw [getSamplesInRange]
    simp [List.length_take]
  · exact List.Pairwise.sublist (List.take_sublist _ _) (Lemmas.pairwise_sortByTs _)
  · intro r hr
    rw [getSamplesInRange] at hr
    have hr2 := (Lemmas.mem_sortByTs r _).mp (List.mem_of_mem_take hr)
    have hp := List.of_mem_filter hr2
    exact of_decide_eq_true hp

/-- Witness for claim C8 at a concrete two row database. -/
theorem claim_C8_witness :
    (getSamplesInRange dbW 0 10).length ≤ 200 ∧
    (getSamplesInRange dbW 0 10).Pairwise (fun a b => a.timestamp ≤ b.timestamp) ∧
    ∀ r ∈ getSamplesInRange dbW 0 10, 0 ≤ r.timestamp ∧ r.timestamp ≤ 10 :=
  claim_C8 dbW 0 10 (by decide)

/-- Claim C6 counterexample: with timestamp 100 already stored, the first
batch row fails its insert, yet the second row is still committed, the
write reports success, and the loop clears the buffer, so nothing is
retried.  This refutes both the abort and the retention parts of the
claim. -/
theorem claim_C6_counterexample :
    insertSample db0 ⟨100, 3/10, 1⟩ = none ∧
    (writeSampleBatch db0 batchBad).1 = [rowA, rowB] ∧
    (writeSampleBatch db0 batchBad).2 = true ∧
    (flushIfFull db0 buffer6).2 = [] :=
  ⟨rfl, rfl, rfl, rfl⟩

/-- Claim C6 as amended: a failed row insert does not abort the batch;
every batch row whose timestamp is fresh and unique within the batch is
committed, writeSampleBatch reports success regardless, and the caller
clears the buffer unconditionally. -/
theorem claim_C6 (db batch : List Row) (r : Row) (hr : r ∈ batch)
    (hdb : hasTimestamp db r.timestamp = false)
    (huniq : (batch.filter (fun b => decide (b.timestamp = r.timestamp))).length = 1) :
    r ∈ (writeSampleBatch db batch).1 ∧ (writeSampleBatch db batch).2 = true ∧
    ∀ buf : List Row, 6 ≤ buf.length → (flushIfFull db buf).2 = [] := by
  refine ⟨Lemmas.mem_foldl_of_fresh batch db r hr hdb huniq, rfl, ?_⟩
  intro buf hbuf
  rw [flushIfFull, if_pos hbuf]

/-- Witness for claim C6 as amended: in the colliding batch, the fresh
row 200 is committed and the buffer is cleared. -/
theorem claim_C6_witness :
    rowB ∈ (writeSampleBatch db0 batchBad).1 ∧ (writeSampleBatch db0 batchBad).2 = true ∧
    ∀ buf : List Row, 6 ≤ buf.length → (flushIfFull db0 buf).2 = [] :=
  claim_C6 db0 batchBad rowB (List.mem_cons.mpr (Or.inr (List.mem_singleton.mpr rfl)))
    rfl rfl

/-- Claim C3 counterexample: theta = 0.3 is above theta_fc = 0.25 and the
refill threshold 0.1 is known, yet a rapid drying rate of -0.003 makes
the engine return REFILL with high urgency instead of FULL with none. -/
theorem claim_C3_counterexample :
    getIrrigationStatus 0.3 0.25 (some 0.1) (some (-0.003)) = ⟨Status.REFILL, Urgency.high⟩ ∧
    Status.REFILL ≠ Status.FULL := by
  constructor
  · rw [getIrrigationStatus]
    rw [if_neg (by norm_num), if_pos]
    right
    refine ⟨by norm_num, by norm_num⟩
  · decide

/-- Claim C3 as amended: with a truthy refill threshold at most
theta + H and theta at or above field capacity, the engine returns FULL
with urgency none unless the drying rate is truthy and below -0.002, in
which case rapid drying overrides FULL and the engine returns REFILL
with high urgency. -/
theorem claim_C3 (theta theta_fc rv : ℝ) (d : Option ℝ) (hrv : rv ≠ 0)
    (hband : rv - refill_hysteresis ≤ theta) (hfc : theta_fc ≤ theta) :
    (¬ rapidDrying d →
      getIrrigationStatus theta theta_fc (some rv) d = ⟨Status.FULL, Urgency.none⟩) ∧
    (rapidDrying d →
      getIrrigationStatus theta theta_fc (some rv) d = ⟨Status.REFILL, Urgency.high⟩) := by
  constructor
  · intro hd
    rw [getIrrigationStatus, if_neg hrv, if_neg (by push_neg; exact ⟨hband, hd⟩),
      if_neg (by intro hc; exact absurd hc.1 (not_lt.mpr hfc)), if_pos hfc]
  · intro hd
    rw [getIrrigationStatus, if_neg hrv, if_pos (Or.inr hd)]

/-- Witness for claim C3 as amended at theta 0.3, field capacity 0.25,
refill threshold 0.2 and a null drying rate. -/
theorem claim_C3_witness :
    getIrrigationStatus 0.3 0.25 (some 0.2) none = ⟨Status.FULL, Urgency.none⟩ :=
  (claim_C3 0.3 0.25 0.2 none (by norm_num) (by norm_num [refill_hysteresis])
    (by norm_num)).1 (by rw [rapidDrying]; exact not_false)

/-- Claim C4 counterexample: with refill threshold 0.2 and H = 0.01 the
engine emits REFILL at theta = 0.185 and then OPTIMAL at theta = 0.195,
although 0.195 does not exceed 0.2 + H: re-entry into OPTIMAL does not
wait for theta to cross the upper hysteresis bound. -/
theorem claim_C4_counterexample :
    statusTrace 0.3 (some 0.2) [(0.185, none), (0.195, none)] =
      [Status.REFILL, Status.OPTIMAL] ∧
    ¬ ((0.2 : ℝ) + refill_hysteresis < 0.195) := by
  constructor
  · rw [statusTrace, List.map_cons, List.map_cons, List.map_nil]
    have h1 : getIrrigationStatus 0.185 0.3 (some 0.2) none = ⟨Status.REFILL, Urgency.high⟩ := by
      rw [getIrrigationStatus, if_neg (by norm_num), if_pos]
      left
      rw [refill_hysteresis]
      norm_num
    have h2 : getIrrigationStatus 0.195 0.3 (some 0.2) none = ⟨Status.OPTIMAL, Urgency.low⟩ := by
      rw [getIrrigationStatus, if_neg (by norm_num),
        if_neg (by push_neg; refine ⟨by rw [refill_hysteresis]; norm_num, by rw [rapidDrying]; exact not_false⟩),
        if_pos (by rw [refill_hysteresis]; norm_num),
        if_neg (by rw [moderateDrying]; exact not_false)]
    rw [h1, h2]
  · rw [refill_hysteresis]
    norm_num

/-- Claim C4 as amended: the status engine is memoryless; with a truthy
refill threshold, OPTIMAL is emitted only when theta is at least
theta_refill - H, and (absent rapid drying) REFILL is emitted exactly
when theta is below theta_refill - H.  So the hysteresis band only
widens REFILL downward and statuses alternate across theta_refill - H,
not theta_refill + H. -/
theorem claim_C4 (theta theta_fc rv : ℝ) (d : Option ℝ) (hrv : rv ≠ 0) :
    ((getIrrigationStatus theta theta_fc (some rv) d).state = Status.OPTIMAL →
      rv - refill_hysteresis ≤ theta) ∧
    (¬ rapidDrying d →
      ((getIrrigationStatus theta theta_fc (some rv) d).state = Status.REFILL ↔
        theta < rv - refill_hysteresis)) := by
  rw [getIrrigationStatus, if_neg hrv]
  constructor
  · split_ifs with h1 h2 h3 h4
    · intro hs; cases hs
    · intro hs; cases hs
    · intro _; exact h2.2
    · intro hs; cases hs
    · intro _
      push_neg at h1
      exact h1.1
  · intro hd
    split_ifs with h1 h2 h3 h4
    · constructor
      · intro _
        exact h1.resolve_right hd
      · intro _; rfl
    · constructor
      · intro hs; cases hs
      · intro hlt; exact absurd (Or.inl hlt) h1
    · constructor
      · intro hs; cases hs
      · intro hlt; exact absurd (Or.inl hlt) h1
    · constructor
      · intro hs; cases hs
      · intro hlt; exact absurd (Or.inl hlt) h1
    · constructor
      · intro hs; cases hs
      · intro hlt; exact absurd (Or.inl hlt) h1

/-- Witness for claim C4 as amended: at theta 0.15, refill 0.2 and null
drying rate the engine emits REFILL, exactly because 0.15 lies below
0.2 - H. -/
theorem claim_C4_witness :
    (getIrrigationStatus 0.15 0.3 (some 0.2) none).state = Status.REFILL :=
  ((claim_C4 0.15 0.3 0.2 none (by norm_num)).2 (by rw [rapidDrying]; exact not_false)).mpr
    (by rw [refill_hysteresis]; norm_num)

/-- Claim C5 counterexample: a refill threshold that has been set to the
boundary value 0 is falsy in JavaScript, so the engine returns UNKNOWN
instead of one of FULL, OPTIMAL, MONITOR, REFILL. -/
theorem claim_C5_counterexample :
    (getIrrigationStatus 0.3 0.2 (some 0) none).state = Status.UNKNOWN ∧
    Status.UNKNOWN ≠ Status.FULL ∧ Status.UNKNOWN ≠ Status.OPTIMAL ∧
    Status.UNKNOWN ≠ Status.MONITOR ∧ Status.UNKNOWN ≠ Status.REFILL := by
  refine ⟨?_, by decide, by decide, by decide, by decide⟩
  rw [getIrrigationStatus, if_pos rfl]

/-- Claim C5 as amended: the engine returns UNKNOWN exactly when the
refill threshold is unset or set to the falsy value 0; in those cases the
urgency is none, and in every other case the status is one of FULL,
OPTIMAL, MONITOR, REFILL. -/
theorem claim_C5 (theta theta_fc : ℝ) (r d : Option ℝ) :
    ((getIrrigationStatus theta theta_fc r d).state = Status.UNKNOWN ↔
      r = none ∨ r = some 0) ∧
    ((r = none ∨ r = some 0) →
      (getIrrigationStatus theta theta_fc r d).urgency = Urgency.none) ∧
    (r ≠ none → r ≠ some 0 →
      (getIrrigationStatus theta theta_fc r d).state = Status.FULL ∨
      (getIrrigationStatus theta theta_fc r d).state = Status.OPTIMAL ∨
      (getIrrigationStatus theta theta_fc r d).state = Status.MONITOR ∨
      (getIrrigationStatus theta theta_fc r d).state = Status.REFILL) := by
  cases r with
  | none => simp [getIrrigationStatus]
  | some rv =>
    by_cases h0 : rv = 0
    · subst h0
      simp [getIrrigationStatus]
    · rw [getIrrigationStatus, if_neg h0]
      refine ⟨?_, ?_, ?_⟩
      · constructor
        · intro hs
          exfalso
          revert hs
          split_ifs <;> intro hs <;> cases hs
        · intro hs
          rcases hs with h | h
          · cases h
          · rw [Option.some.injEq] at h
            exact absurd h h0
      · intro hs
        rcases hs with h | h
        · cases h
        · rw [Option.some.injEq] at h
          exact absurd h h0
      · intro _ _
        split_ifs <;> simp

/-- Witness for claim C5 as amended: a set nonzero refill threshold gives
one of the four calibrated statuses. -/
theorem claim_C5_witness :
    (getIrrigationStatus 0.25 0.3 (some 0.2) none).state = Status.FULL ∨
    (getIrrigationStatus 0.25 0.3 (some 0.2) none).state = Status.OPTIMAL ∨
    (getIrrigationStatus 0.25 0.3 (some 0.2) none).state = Status.MONITOR ∨
    (getIrrigationStatus 0.25 0.3 (some 0.2) none).state = Status.REFILL :=
  (claim_C5 0.25 0.3 (some 0.2) none).2.2 (by simp) (by norm_num)


end AgriScan
